import Mathlib

/-!
# Verification of the mwa2 dual-format record store (`api/models.py`)

Shallow embedding of the format-detection / dual-format-codec / record-store
core of the repository, together with proofs of the specification claims.

Conventions of the embedding:
* Python strings are Lean `String`s; the Python predicates `startswith`,
  `endswith`, `in`, `lower`, `strip`, `split` are modelled on the character
  list (`String.data`), restricted to ASCII inputs (all inputs the store
  deals with here are ASCII).
* Structured documents (the values produced by `yaml.safe_load` /
  `plistlib.loads`) are the inductive `Doc` below: mappings keep insertion
  order, as Python dicts do.
* Python exceptions become the inductive `PyExc`; a function that can raise
  returns `Except PyExc α`.  The external parsers/serializers
  (`yaml.safe_load`, `plistlib.loads`, `yaml.dump`, `plistlib.dumps`) are
  passed in as explicit function parameters (`Parsers`, `Encoders`), with
  their failure *classes* made explicit, because the repository code
  dispatches on the exception class it catches.
* The filesystem is an explicit state `Fs`; syscall outcomes that depend on
  the OS (permission errors, I/O errors) come from an `IOOracle`.
-/

set_option maxRecDepth 4000
set_option linter.unusedVariables false

/-- Structured document tree: the in-memory value decoded from a plist or
YAML file.  Mapping insertion order is preserved (Python `dict`). -/
inductive Doc where
  | s (v : String)
  | i (v : Int)
  | b (v : Bool)
  | list (items : List Doc)
  | dict (entries : List (String × Doc))
deriving Repr

/-- Failure classes of `plistlib.loads` (CPython): `ExpatError` for
malformed XML, `IOError`/`OSError`, and `InvalidFileException` (a
`ValueError` subclass) raised when the content's header matches neither the
binary-plist magic nor an XML prelude. -/
inductive PlistExc where
  | expat
  | ioErr
  | invalidFile
deriving Repr, DecidableEq

/-- Python exceptions that can cross the boundaries of the embedded code.
`osError` stands for a raw `IOError`/`OSError` from the platform;
`invalidFileException` is `plistlib.InvalidFileException` (a `ValueError`);
`unboundLocal` is `UnboundLocalError`; the `file*` constructors are the
repository's own `FileError` subclasses, carrying their message/cause. -/
inductive PyExc where
  | osError (msg : String)
  | invalidFileException
  | unboundLocal (name : String)
  | fileDoesNotExist (msg : String)
  | fileAlreadyExists (msg : String)
  | fileReadError (msg : String)
  | fileWriteError (msg : String)
  | fileDeleteError (msg : String)
deriving Repr, DecidableEq

/-- Membership in the repository's documented file-operation error family
(the `FileError` subclasses defined in `api/models.py`). -/
def PyExc.isFileError : PyExc → Bool
  | .fileDoesNotExist _ => true
  | .fileAlreadyExists _ => true
  | .fileReadError _ => true
  | .fileWriteError _ => true
  | .fileDeleteError _ => true
  | _ => false

/-- Python `s.startswith(t)`. -/
def py_startswith (s t : String) : Bool := t.data.isPrefixOf s.data

/-- Python `s.endswith(t)`. -/
def py_endswith (s t : String) : Bool := t.data.isSuffixOf s.data

/-- Python `c in s` for a single character. -/
def py_contains (s : String) (c : Char) : Bool := s.data.contains c

/-- Python truthiness of a string (`not s` ⟺ `s` empty). -/
def py_empty (s : String) : Bool := s.data.isEmpty

/-- ASCII whitespace stripped by Python `str.strip()`. -/
def pyIsSpace (c : Char) : Bool :=
  c = ' ' || c = '\t' || c = '\n' || c = '\r' || c = '\x0b' || c = '\x0c'

/-- Python `str.strip()` on a character list. -/
def stripData (cs : List Char) : List Char :=
  ((cs.dropWhile pyIsSpace).reverse.dropWhile pyIsSpace).reverse

/-- Python `str.strip()`. -/
def py_strip (s : String) : String := String.mk (stripData s.data)

/-- Python `str.split(sep)` for a one-character separator: always returns at
least one (possibly empty) field, like CPython (`"".split('\n') == ['']`). -/
def splitOnCharData (sep : Char) : List Char → List (List Char)
  | [] => [[]]
  | c :: rest =>
    let r := splitOnCharData sep rest
    if c = sep then [] :: r
    else
      match r with
      | [] => [[c]]
      | h :: t => (c :: h) :: t

/-- Helper for `os.path.splitext`: scans the reversed basename.  The first
`'.'` met (i.e. the last dot of the basename) starts the extension, but
only if some non-dot character precedes it in the basename (CPython skips
the leading dots of the basename, so `".yaml"` has no extension). -/
def extAfterDot : List Char → List Char → List Char
  | [], _ => []
  | c :: rest, acc =>
    if c = '.' then (if rest.any (fun x => x != '.') then '.' :: acc else [])
    else extAfterDot rest (c :: acc)

/-- The extension part of `os.path.splitext(p)[1]`, as a character list. -/
def splitextExtData (p : String) : List Char :=
  extAfterDot (p.data.reverse.takeWhile (fun c => c != '/')) []

/-- `is_yaml_file` from `api/models.py` (lines 61-66): True iff the
`os.path.splitext` extension, lowercased, is `.yaml` or `.yml`. -/
def is_yaml_file (filepath : String) : Bool :=
  if py_empty filepath then false
  else
    let ext := (splitextExtData filepath).map Char.toLower
    ext = ".yaml".data || ext = ".yml".data

/-- A (trimmed) line that the scoring loop does not skip: non-blank and not
a `#` comment. -/
def lineKept (t : List Char) : Bool := !(t.isEmpty || "#".data.isPrefixOf t)

/-- A YAML-looking line: contains `:` and does not start with `<`. -/
def lineYaml (t : List Char) : Bool := t.contains ':' && !("<".data.isPrefixOf t)

/-- An XML-looking line: starts with `<` and ends with `>`. -/
def lineXml (t : List Char) : Bool := "<".data.isPrefixOf t && ">".data.isSuffixOf t

/-- One step of the line-scoring loop of `is_likely_yaml_content`
(lines 89-100): blank and `#`-comment lines are skipped; a line containing
`:` and not starting with `<` bumps the YAML score, a line that starts with
`<` and ends with `>` bumps the XML score. -/
def scoreLine (counts : Nat × Nat) (line : List Char) : Nat × Nat :=
  let t := stripData line
  if !lineKept t then counts
  else
    ((if lineYaml t then counts.1 + 1 else counts.1),
     (if lineXml t then counts.2 + 1 else counts.2))

/-- `is_likely_yaml_content` from `api/models.py` (lines 69-103). -/
def is_likely_yaml_content (content : String) : Bool :=
  if py_empty content then false
  else
    let c := stripData content.data
    if "---".data.isPrefixOf c then true
    else if "<?xml".data.isPrefixOf c || "<plist".data.isPrefixOf c then false
    else
      let lines := (splitOnCharData '\n' c).take 10
      let counts := lines.foldl scoreLine (0, 0)
      decide (counts.2 < counts.1)

/-- The external parsers the store calls: `yaml.safe_load` (failing with
`yaml.YAMLError`, modelled as `Unit`) and `plistlib.loads` (failing with one
of the `PlistExc` classes). -/
structure Parsers where
  yamlLoad : String → Except Unit Doc
  plistLoads : String → Except PlistExc Doc

/-- The external serializers the store calls: `yaml.dump` and
`plistlib.dumps` (each failing with an error the code turns into
`FileWriteError`). -/
structure Encoders where
  yamlDump : Doc → Except Unit String
  plistDumps : Doc → Except Unit String

/-- Model of CPython `plistlib.load` format detection: the parser is chosen
by the leading bytes; when the header matches neither the binary-plist
magic `bplist00` nor an XML prelude (`<?xml` / `<plist`; BOM-prefixed
variants omitted — irrelevant for the ASCII inputs considered here),
`plistlib.loads` raises `InvalidFileException` without parsing. -/
def plistlibHeaderRecognized (content : String) : Bool :=
  py_startswith content "bplist00" || py_startswith content "<?xml" ||
    py_startswith content "<plist"

/-- The format-and-fallback decode logic of `read_plist_or_yaml`
(`api/models.py` lines 124-149), after the file content has been read and
the preference hint computed.  Faithful to the `except` clauses: the plist
attempts catch only `ExpatError` and `IOError`, so a
`plistlib.InvalidFileException` propagates to the caller. -/
def decode_plist_or_yaml (P : Parsers) (yamlAvailable : Bool)
    (content : String) (prefer_yaml : Bool) : Except PyExc Doc :=
  if prefer_yaml && yamlAvailable then
    match P.yamlLoad content with
    | .ok d => .ok d
    | .error () =>
      match P.plistLoads content with
      | .ok d => .ok d
      | .error .expat => .ok (.dict [])
      | .error .ioErr => .ok (.dict [])
      | .error .invalidFile => .error .invalidFileException
  else
    match P.plistLoads content with
    | .ok d => .ok d
    | .error .invalidFile => .error .invalidFileException
    | .error .expat =>
      if yamlAvailable then
        match P.yamlLoad content with
        | .ok d => .ok d
        | .error () => .ok (.dict [])
      else .ok (.dict [])
    | .error .ioErr =>
      if yamlAvailable then
        match P.yamlLoad content with
        | .ok d => .ok d
        | .error () => .ok (.dict [])
      else .ok (.dict [])

/-- `write_plist_or_yaml` from `api/models.py` (lines 152-167): serialize
`data` as YAML when `prefer_yaml` (and YAML support is present), else as a
plist; serializer failures are raised as `FileWriteError`. -/
def write_plist_or_yaml (E : Encoders) (yamlAvailable : Bool)
    (data : Doc) (prefer_yaml : Bool) : Except PyExc String :=
  if prefer_yaml && yamlAvailable then
    match E.yamlDump data with
    | .ok s => .ok s
    | .error () => .error (.fileWriteError "Could not serialize as YAML")
  else
    match E.plistDumps data with
    | .ok s => .ok s
    | .error () => .error (.fileWriteError "Could not serialize as plist")

/-- The dictionary returned by `get_file_format_info` (lines 170-198). -/
structure FormatInfo where
  format : String
  can_read_yaml : Bool
  extension : String
deriving Repr, DecidableEq

/-- `get_file_format_info` from `api/models.py` (lines 170-198).
`existsOnDisk` is `os.path.exists(filepath)`; `readResult` is the outcome
of reading the first 1000 characters (`.error` = `IOError`/`OSError`). -/
def get_file_format_info (yamlAvailable : Bool) (filepath : String)
    (existsOnDisk : Bool) (readResult : Except String String) : FormatInfo :=
  let info : FormatInfo :=
    { format := "unknown", can_read_yaml := yamlAvailable,
      extension := String.mk ((splitextExtData filepath).map Char.toLower) }
  if !existsOnDisk then info
  else
    match readResult with
    | .error _ => info
    | .ok content =>
      if is_yaml_file filepath then { info with format := "yaml" }
      else if py_endswith filepath ".plist" then { info with format := "plist" }
      else if is_likely_yaml_content content then { info with format := "yaml" }
      else if "<?xml".data.isPrefixOf (stripData content.data) ||
              "<plist".data.isPrefixOf (stripData content.data) then
        { info with format := "plist" }
      else info

/-- `os.path.join(a, b)` (POSIX, two components): an absolute `b` discards
`a`; otherwise a `/` is inserted unless `a` is empty or already ends in
`/`. -/
def joinPath (a b : String) : String :=
  if py_startswith b "/" then b
  else if py_empty a || py_endswith a "/" then a ++ b
  else a ++ "/" ++ b

/-- `os.path.dirname(p)` (POSIX): everything up to the last `/`, with
trailing slashes stripped unless the head is all slashes. -/
def dirnameS (p : String) : String :=
  let headRev := p.data.reverse.dropWhile (fun c => c != '/')
  match headRev with
  | [] => ""
  | _ =>
    let stripped := headRev.dropWhile (fun c => c = '/')
    if stripped.isEmpty then String.mk headRev.reverse
    else String.mk stripped.reverse

/-- One step of the component loop of CPython `posixpath.normpath`. -/
def normComp (initialSlashes : Nat) (acc : List String) (comp : String) : List String :=
  if comp = "" || comp = "." then acc
  else if !(comp == "..") || (initialSlashes == 0 && acc.isEmpty) ||
          decide (acc.getLast? = some "..") then acc ++ [comp]
  else if !acc.isEmpty then acc.dropLast
  else acc

/-- `os.path.normpath(p)` (POSIX), following CPython `posixpath.normpath`. -/
def normpathS (path : String) : String :=
  if py_empty path then "."
  else
    let initialSlashes : Nat :=
      if py_startswith path "//" && !(py_startswith path "///") then 2
      else if py_startswith path "/" then 1 else 0
    let comps := (splitOnCharData '/' path.data).map String.mk
    let newComps := comps.foldl (normComp initialSlashes) []
    let res := String.mk (List.replicate initialSlashes '/') ++
      String.intercalate "/" newComps
    if py_empty res then "." else res

/-- The Django settings the store consults: `MUNKI_REPO_DIR`, the optional
`PREFER_YAML_FORMAT` flag (`getattr(settings, 'PREFER_YAML_FORMAT', False)`,
so `none` models an absent attribute), and whether the `yaml` module
imported successfully (`YAML_AVAILABLE`). -/
structure Settings where
  repoDir : String
  preferYamlFormat : Option Bool
  yamlAvailable : Bool

/-- Outcomes of the OS-level calls an operation may perform (at most one of
each per operation): `.error msg` models an `IOError`/`OSError` raised by
the platform. -/
structure IOOracle where
  makedirsResult : Except String Unit
  readResult : Except String Unit
  writeResult : Except String Unit
  unlinkResult : Except String Unit

/-- All-successful syscalls. -/
def IOOracle.allOk : IOOracle := ⟨.ok (), .ok (), .ok (), .ok ()⟩

/-- Filesystem state: regular files (path ↦ text content) and directories.
The version-control notifier (`MunkiGit`) and the progress reporter
(`record_status`) are external collaborators with no effect on this state,
and are modelled as no-ops. -/
structure Fs where
  files : List (String × String)
  dirs : List String
deriving Repr

def Fs.empty : Fs := ⟨[], []⟩

def Fs.lookupFile (fs : Fs) (p : String) : Option String := fs.files.lookup p

/-- `os.path.exists`: true for files and directories alike. -/
def Fs.existsPath (fs : Fs) (p : String) : Bool :=
  (fs.lookupFile p).isSome || fs.dirs.contains p

def Fs.setFile (fs : Fs) (p c : String) : Fs :=
  ⟨(p, c) :: fs.files.filter (fun kv => !(kv.1 == p)), fs.dirs⟩

def Fs.removeFile (fs : Fs) (p : String) : Fs :=
  ⟨fs.files.filter (fun kv => !(kv.1 == p)), fs.dirs⟩

/-- `os.makedirs(p)` (modelled at the granularity the claims need: the
parent directory path becomes existent). -/
def Fs.mkdirs (fs : Fs) (p : String) : Fs := ⟨fs.files, p :: fs.dirs⟩

/-- `read_plist_or_yaml` from `api/models.py` (lines 106-149): existence
check, file read (an `IOError`/`OSError` is re-raised as `FileReadError`
with the cause in the message), extension/content-based preference, then
the fallback decode chain.  Opening a directory also raises an `OSError`,
hence the `.error` on a path that exists only as a directory. -/
def read_plist_or_yaml (P : Parsers) (yamlAvailable : Bool) (O : IOOracle)
    (fs : Fs) (filepath : String) : Except PyExc Doc :=
  if !fs.existsPath filepath then
    .error (.fileDoesNotExist (filepath ++ " not found"))
  else
    match O.readResult with
    | .error err => .error (.fileReadError ("Could not read " ++ filepath ++ ": " ++ err))
    | .ok () =>
      match fs.lookupFile filepath with
      | none => .error (.fileReadError ("Could not read " ++ filepath ++ ": is a directory"))
      | some content =>
        let prefer1 := is_yaml_file filepath
        let prefer_yaml :=
          if !prefer1 && !(py_endswith filepath ".plist") then
            is_likely_yaml_content content
          else prefer1
        decode_plist_or_yaml P yamlAvailable content prefer_yaml

/-- The six empty sections `Plist.new` gives a fresh manifest
(`api/models.py` lines 246-252, in loop order). -/
def manifestSections : List String :=
  ["catalogs", "included_manifests", "managed_installs",
   "managed_uninstalls", "managed_updates", "optional_installs"]

/-- The default skeleton for kind `manifests`. -/
def manifestSkeleton : Doc := .dict (manifestSections.map (fun s => (s, .list [])))

/-- The default skeleton for kind `pkgsinfo` (lines 253-260). -/
def pkgsinfoSkeleton : Doc :=
  .dict [("name", .s "ProductName"),
         ("display_name", .s "Display Name"),
         ("description", .s "Product description"),
         ("version", .s "1.0"),
         ("catalogs", .list [.s "development"])]

/-- The kind-specific default skeleton selected by `Plist.new` when the
caller supplies no (truthy) data: only `manifests` and `pkgsinfo` assign
the local `plist`; any other kind leaves it unassigned (`none`). -/
def newDefaultDoc (kind : String) : Option Doc :=
  if kind == "manifests" then some manifestSkeleton
  else if kind == "pkgsinfo" then some pkgsinfoSkeleton
  else none

/-- Python truthiness of a document (`if plist_data:`). -/
def Doc.truthy : Doc → Bool
  | .s v => !v.data.isEmpty
  | .i v => !(v == 0)
  | .b v => v
  | .list items => !items.isEmpty
  | .dict entries => !entries.isEmpty

/-- Truthiness of the optional `plist_data` argument (`None` is falsy). -/
def docTruthy : Option Doc → Bool
  | none => false
  | some d => d.truthy

/-- The format choice made by `Plist.new` (lines 262-271): a `.yaml`/`.yml`
suffix forces YAML; a `.plist` suffix forces plist; otherwise the global
`PREFER_YAML_FORMAT` setting (default `False`) decides. -/
def newPreferYaml (pathname : String) (S : Settings) : Bool :=
  if py_endswith pathname ".yaml" || py_endswith pathname ".yml" then true
  else if !(py_endswith pathname ".plist") then S.preferYamlFormat.getD false
  else false

/-- The format choice made by `Plist.write_object` (lines 327-338): the
caller's explicit `prefer_yaml` argument, defaulted from the global
setting when `None`, then overridden by an explicit path suffix. -/
def writeObjectPreferYaml (prefer_yaml : Option Bool) (pathname : String)
    (S : Settings) : Bool :=
  let p :=
    match prefer_yaml with
    | none => S.preferYamlFormat.getD false
    | some b => b
  if py_endswith pathname ".yaml" || py_endswith pathname ".yml" then true
  else if py_endswith pathname ".plist" then false
  else p

/-- `os.path.join(REPO_DIR, kind, os.path.normpath(pathname))`, the target
path every `Plist` operation resolves. -/
def mkFilepath (S : Settings) (kind pathname : String) : String :=
  joinPath (joinPath S.repoDir kind) (normpathS pathname)

/-- The intermediate-directory fragment `Plist.new`, `Plist.write` and
`Plist.write_object` each repeat (`api/models.py` lines 234-241, 305-311,
342-348): if the parent directory is missing, attempt `os.makedirs`,
re-raising an `IOError`/`OSError` as `FileWriteError`. -/
def ensureParentDir (O : IOOracle) (fs : Fs) (parent : String) : Except PyExc Fs :=
  if !fs.existsPath parent then
    match O.makedirsResult with
    | .ok () => .ok (fs.mkdirs parent)
    | .error err => .error (.fileWriteError err)
  else .ok fs

namespace Plist

/-- `Plist.new` from `api/models.py` (lines 226-286).  Returns the written
text (the Python function returns `data`) together with the updated
filesystem.  Mirrors the source order: existence check, intermediate-dir
creation, skeleton selection (`plist` stays unassigned for unknown kinds,
so its use raises `UnboundLocalError`), format choice, serialization, file
write.  The git notification is a no-op collaborator. -/
def new (E : Encoders) (S : Settings) (O : IOOracle) (fs : Fs)
    (kind pathname user : String) (plist_data : Option Doc) :
    Except PyExc String × Fs :=
  let filepath := mkFilepath S kind pathname
  if fs.existsPath filepath then
    (.error (.fileAlreadyExists (kind ++ "/" ++ pathname ++ " already exists!")), fs)
  else
    let parent := dirnameS filepath
    match ensureParentDir O fs parent with
    | .error e => (.error e, fs)
    | .ok fs1 =>
      let plistVar : Option Doc :=
        if docTruthy plist_data then plist_data else newDefaultDoc kind
      match plistVar with
      | none => (.error (.unboundLocal "plist"), fs1)
      | some plist =>
        let prefer_yaml := newPreferYaml pathname S
        match write_plist_or_yaml E S.yamlAvailable plist prefer_yaml with
        | .error e => (.error e, fs1)
        | .ok data =>
          match O.writeResult with
          | .error err => (.error (.fileWriteError err), fs1)
          | .ok () => (.ok data, fs1.setFile filepath data)

/-- `Plist.read` from `api/models.py` (lines 288-298): delegates to
`read_plist_or_yaml`, rewording `FileDoesNotExistError` and wrapping
`FileReadError`/`FileWriteError` into `FileReadError`.  Read-only: no
filesystem state is returned because none is changed. -/
def read (P : Parsers) (S : Settings) (O : IOOracle) (fs : Fs)
    (kind pathname : String) : Except PyExc Doc :=
  let filepath := mkFilepath S kind pathname
  match read_plist_or_yaml P S.yamlAvailable O fs filepath with
  | .error (.fileDoesNotExist _) =>
    .error (.fileDoesNotExist (kind ++ "/" ++ pathname ++ " not found"))
  | .error (.fileReadError m) => .error (.fileReadError m)
  | .error (.fileWriteError m) => .error (.fileReadError m)
  | r => r

/-- `Plist.write` from `api/models.py` (lines 300-322): the pre-serialized
text shape; writes `data` verbatim (no format resolution), creating missing
intermediate directories. -/
def write (S : Settings) (O : IOOracle) (fs : Fs)
    (data : String) (kind pathname user : String) : Except PyExc Unit × Fs :=
  let filepath := mkFilepath S kind pathname
  let parent := dirnameS filepath
  match ensureParentDir O fs parent with
  | .error e => (.error e, fs)
  | .ok fs1 =>
    match O.writeResult with
    | .error err => (.error (.fileWriteError err), fs1)
    | .ok () => (.ok (), fs1.setFile filepath data)

/-- `Plist.write_object` from `api/models.py` (lines 324-364): the
structured-document shape; resolves the format preference, serializes
(serializer failures surface as `FileWriteError` from
`write_plist_or_yaml`), and writes. -/
def write_object (E : Encoders) (S : Settings) (O : IOOracle) (fs : Fs)
    (data_object : Doc) (kind pathname user : String)
    (prefer_yaml : Option Bool) : Except PyExc Unit × Fs :=
  let py := writeObjectPreferYaml prefer_yaml pathname S
  let filepath := mkFilepath S kind pathname
  let parent := dirnameS filepath
  match ensureParentDir O fs parent with
  | .error e => (.error e, fs)
  | .ok fs1 =>
    match write_plist_or_yaml E S.yamlAvailable data_object py with
    | .error e => (.error e, fs1)
    | .ok content =>
      match O.writeResult with
      | .error err => (.error (.fileWriteError err), fs1)
      | .ok () => (.ok (), fs1.setFile filepath content)

/-- `Plist.delete` from `api/models.py` (lines 366-382): existence check,
then `os.unlink` with `IOError`/`OSError` re-raised as `FileDeleteError`. -/
def delete (S : Settings) (O : IOOracle) (fs : Fs)
    (kind pathname user : String) : Except PyExc Unit × Fs :=
  let filepath := mkFilepath S kind pathname
  if !fs.existsPath filepath then
    (.error (.fileDoesNotExist (kind ++ "/" ++ pathname ++ " does not exist")), fs)
  else
    match O.unlinkResult with
    | .error err => (.error (.fileDeleteError err), fs)
    | .ok () => (.ok (), fs.removeFile filepath)

end Plist

/-- A directory tree rooted at a kind directory: node name, regular file
names in it, and subdirectories. -/
inductive DirTree where
  | node (name : String) (files : List String) (subdirs : List DirTree)

def DirTree.name : DirTree → String
  | .node n _ _ => n

/-- The `os.walk` loop shared by `Plist.list` and `MunkiFile.list`
(`api/models.py` lines 204-224 and 392-409), applied to the forest of
subdirectories below the point reached so far.  `subdir` is the relative
path (as components) of the directory being walked.  Faithful to the
source: dot-prefixed directory names are pruned from `dirnames` (their
trees are never entered), dot-prefixed file names are filtered out, and
each reported entry is `os.path.join(subdir, name)` — represented here as
the component list `subdir ++ [dirname, filename]`. -/
def walkForest : List String → List DirTree → List (List String)
  | _, [] => []
  | subdir, .node name files subs :: rest =>
    (if py_startswith name "." then [] else
      (files.filter (fun f => !py_startswith f ".")).map (fun f => subdir ++ [name, f])
      ++ walkForest (subdir ++ [name]) subs)
    ++ walkForest subdir rest

/-- The full listing walk from the kind directory itself: the root's own
files (reported with an empty `subdir`, so just `[f]`), then the pruned
recursive walk.  The root directory's own name is never filtered (the walk
starts inside it), matching `os.walk(kind_dir)`. -/
def listWalk (root : DirTree) : List (List String) :=
  match root with
  | .node _ files subs =>
    (files.filter (fun f => !py_startswith f ".")).map (fun f => [f])
      ++ walkForest [] subs

/-- `Plist.list` (lines 203-224): enumerates every non-dot file under the
kind directory.  The `record_status` progress reporter is a no-op
collaborator with no effect on the result. -/
def Plist.list (root : DirTree) : List (List String) := listWalk root

/-- `MunkiFile.list` (lines 392-409): textually duplicated in the source
from `Plist.list`, with identical walking, pruning and filtering logic. -/
def MunkiFile.list (root : DirTree) : List (List String) := listWalk root

/-- The keys of a mapping document, in insertion order. -/
def Doc.keys : Doc → List String
  | .dict entries => entries.map (fun kv => kv.1)
  | _ => []

/-- Key lookup in a mapping document. -/
def Doc.lookup (d : Doc) (k : String) : Option Doc :=
  match d with
  | .dict entries => entries.lookup k
  | _ => none

/-- Number of fields of a mapping document. -/
def fieldCount (d : Doc) : Nat := d.keys.length

def Doc.isEmptyList : Doc → Bool
  | .list [] => true
  | _ => false

def Doc.isScalar : Doc → Bool
  | .s _ => true
  | .i _ => true
  | .b _ => true
  | _ => false

/-- Number of fields of a mapping whose value is an empty list. -/
def emptyListFieldCount (d : Doc) : Nat :=
  match d with
  | .dict entries => (entries.filter (fun kv => kv.2.isEmptyList)).length
  | _ => 0

/-- Number of scalar-valued fields of a mapping. -/
def scalarFieldCount (d : Doc) : Nat :=
  match d with
  | .dict entries => (entries.filter (fun kv => kv.2.isScalar)).length
  | _ => 0

/-- The content classification exactly as the spec sentence for C5 words
it: score each of **the first 10 non-blank, non-comment lines** (rather
than the non-blank, non-comment lines among the first 10 lines, which is
what the source does). -/
def spec_is_likely_yaml (content : String) : Bool :=
  if py_empty content then false
  else
    let c := stripData content.data
    if "---".data.isPrefixOf c then true
    else if "<?xml".data.isPrefixOf c || "<plist".data.isPrefixOf c then false
    else
      let ts := (((splitOnCharData '\n' c).map stripData).filter lineKept).take 10
      let y := (ts.filter lineYaml).length
      let x := (ts.filter lineXml).length
      decide (x < y)

/-- The amended wording of C5: score each non-blank, non-comment line among
the first 10 lines of the trimmed content. -/
def amended_is_likely_yaml (content : String) : Bool :=
  if py_empty content then false
  else
    let c := stripData content.data
    if "---".data.isPrefixOf c then true
    else if "<?xml".data.isPrefixOf c || "<plist".data.isPrefixOf c then false
    else
      let ts := (((splitOnCharData '\n' c).take 10).map stripData).filter lineKept
      let y := (ts.filter lineYaml).length
      let x := (ts.filter lineXml).length
      decide (x < y)

/-- `true` iff the result is not a raw platform `OSError`/`IOError`. -/
def noOsError {α : Type} : Except PyExc α → Bool
  | .error (.osError _) => false
  | _ => true

theorem scoreLine_eq (y x : Nat) (l : List Char) :
    scoreLine (y, x) l =
      (y + (if lineKept (stripData l) && lineYaml (stripData l) then 1 else 0),
       x + (if lineKept (stripData l) && lineXml (stripData l) then 1 else 0)) := by
  simp only [scoreLine]
  cases hk : lineKept (stripData l) <;> cases hy : lineYaml (stripData l) <;>
    cases hx : lineXml (stripData l) <;> simp [hk, hy, hx]

theorem foldl_scoreLine_eq (lines : List (List Char)) (y x : Nat) :
    lines.foldl scoreLine (y, x) =
      (y + (((lines.map stripData).filter lineKept).filter lineYaml).length,
       x + (((lines.map stripData).filter lineKept).filter lineXml).length) := by
  induction lines generalizing y x with
  | nil => simp
  | cons l ls ih =>
    rw [List.foldl_cons, scoreLine_eq, ih]
    simp only [List.map_cons, List.filter_cons]
    cases hk : lineKept (stripData l) <;> cases hy : lineYaml (stripData l) <;>
      cases hx : lineXml (stripData l) <;> simp [hk, hy, hx] <;> omega

/-- C5 (amended): for a suffix-less path, content classification checks the
trimmed content for a `---` document separator (yaml), then for an
`<?xml`/`<plist` header (plist), and otherwise scores each non-blank,
non-comment line **among the first 10 lines** (not the first 10 non-blank,
non-comment lines) of the trimmed content: a line containing `:` and not
starting with `<` counts YAML-like, a line both starting and ending with
angle brackets counts XML-like, and the result is yaml exactly when the
YAML-like count exceeds the XML-like count, plist otherwise. -/
theorem is_likely_yaml_content_amended_spec (content : String) :
    is_likely_yaml_content content = amended_is_likely_yaml content := by
  simp only [is_likely_yaml_content, amended_is_likely_yaml]
  by_cases h0 : py_empty content = true
  · simp [h0]
  · simp only [h0, if_false]
    by_cases h1 : "---".data.isPrefixOf (stripData content.data) = true
    · simp [h1]
    · simp only [h1, if_false]
      by_cases h2 : ("<?xml".data.isPrefixOf (stripData content.data) ||
          "<plist".data.isPrefixOf (stripData content.data)) = true
      · simp [h2]
      · simp only [h2, if_false]
        rw [foldl_scoreLine_eq]
        simp

/-- C5 (counterexample input): nine comment lines push the only XML-looking
line into the 10-line window while the YAML-looking lines fall outside it. -/
def c5Content : String := "#\n#\n#\n#\n#\n#\n#\n#\n#\n<x>\na: b\nc: d"

/-- C5 (counterexample): the claim's reading — score the first 10 non-blank,
non-comment lines — classifies `c5Content` as yaml (2 YAML-like lines
against 1 XML-like), but the source (`is_likely_yaml_content`), which scores
only the non-blank, non-comment lines among the first 10 raw lines, returns
plist. -/
theorem c5_first_ten_nonblank_counterexample :
    spec_is_likely_yaml c5Content = true ∧
    is_likely_yaml_content c5Content = false := by
  constructor <;> decide

/-- C7 (counterexample): the default manifest skeleton does not have seven
empty-list fields (it has six). -/
theorem manifest_skeleton_not_seven_fields :
    ¬ (emptyListFieldCount manifestSkeleton = 7) := by decide

/-- C7 (amended): the kind-specific default skeleton built by create when no
initial document is supplied has six predefined empty-list fields for an
empty manifest, and five predefined fields for a new package-info record —
four scalar placeholder values plus the list-valued `catalogs` field. -/
theorem default_skeleton_shapes :
    newDefaultDoc "manifests" = some manifestSkeleton ∧
    newDefaultDoc "pkgsinfo" = some pkgsinfoSkeleton ∧
    emptyListFieldCount manifestSkeleton = 6 ∧
    fieldCount manifestSkeleton = 6 ∧
    fieldCount pkgsinfoSkeleton = 5 ∧
    scalarFieldCount pkgsinfoSkeleton = 4 ∧
    Doc.lookup pkgsinfoSkeleton "catalogs" = some (.list [.s "development"]) :=
  ⟨rfl, rfl, rfl, rfl, rfl, rfl, rfl⟩

/-- C1 (code bug): when both parsers fail but the plist failure is
`plistlib.InvalidFileException` — which is what `plistlib.loads` raises on
any content whose header is neither the binary-plist magic nor an XML
prelude, e.g. the file content `"a: b: c"` (a YAML scanner error as well) —
`read_plist_or_yaml`'s decode chain propagates the exception to its caller
instead of returning the empty mapping: the `except` clauses catch only
`ExpatError` and `IOError`, contradicting the code's own
`# Both failed, return empty dict` comments and the spec.  This holds for
both format hints. -/
theorem decode_uncaught_invalid_file (P : Parsers) (content : String) (hint : Bool)
    (hHdr : plistlibHeaderRecognized content = false)
    (hPl : ∀ c, plistlibHeaderRecognized c = false → P.plistLoads c = .error .invalidFile)
    (hY : P.yamlLoad content = .error ()) :
    decode_plist_or_yaml P true content hint = .error .invalidFileException := by
  have hp := hPl content hHdr
  cases hint <;> simp [decode_plist_or_yaml, hp, hY]

/-- Concrete stand-ins for the external parsers, consistent with the
CPython behaviour used by `decode_uncaught_invalid_file`: an unrecognized
header yields `InvalidFileException`. -/
def stubParsers : Parsers :=
  ⟨fun _ => .error (),
   fun c => if plistlibHeaderRecognized c then .error .expat else .error .invalidFile⟩

theorem decode_uncaught_invalid_file_witness :
    is_likely_yaml_content "a: b: c" = true ∧
    decode_plist_or_yaml stubParsers true "a: b: c" true = .error .invalidFileException := by
  refine ⟨by decide, decode_uncaught_invalid_file stubParsers "a: b: c" true (by decide) ?_ rfl⟩
  intro c hc
  simp [stubParsers, hc]

/-- C10: for any kind other than `manifests` and `pkgsinfo`, `Plist.new`
with no caller-supplied data and a fresh target path reaches the use of its
never-assigned local `plist` and raises `UnboundLocalError` — an error that
is not in the documented `FileError` family — instead of producing any
default skeleton. -/
theorem create_unknown_kind_unbound (E : Encoders) (S : Settings) (O : IOOracle)
    (fs : Fs) (kind pathname user : String)
    (h1 : kind ≠ "manifests") (h2 : kind ≠ "pkgsinfo")
    (h3 : fs.existsPath (mkFilepath S kind pathname) = false)
    (h4 : O.makedirsResult = .ok ()) :
    (Plist.new E S O fs kind pathname user none).1 = .error (.unboundLocal "plist") ∧
    PyExc.isFileError (.unboundLocal "plist") = false := by
  refine ⟨?_, rfl⟩
  simp only [Plist.new, h3, if_false, Bool.false_eq_true]
  by_cases hp : fs.existsPath (dirnameS (mkFilepath S kind pathname)) = true <;>
    simp [hp, h4, docTruthy, newDefaultDoc, h1, h2, ensureParentDir]

def settings0 : Settings := ⟨"/repo", some false, true⟩

def encoders0 : Encoders := ⟨fun _ => .ok "Y", fun _ => .ok "Pl"⟩

theorem create_unknown_kind_unbound_witness :
    (Plist.new encoders0 settings0 IOOracle.allOk Fs.empty "catalogs" "all" "user" none).1
      = .error (.unboundLocal "plist") :=
  (create_unknown_kind_unbound encoders0 settings0 IOOracle.allOk Fs.empty
    "catalogs" "all" "user" (by decide) (by decide) (by decide) rfl).1

/-- C4: `create` on an existing path fails with `FileAlreadyExistsError`
and leaves the filesystem unchanged (the returned state is the input
state); `delete` on a non-existent path fails with `FileDoesNotExistError`
and leaves the filesystem unchanged; `read` on a non-existent path fails
with `FileDoesNotExistError` (and is side-effect free by construction: it
does not return a filesystem). -/
theorem existence_preconditions :
    (∀ (E : Encoders) (S : Settings) (O : IOOracle) (fs : Fs)
        (kind pathname user : String) (plist_data : Option Doc),
      fs.existsPath (mkFilepath S kind pathname) = true →
      Plist.new E S O fs kind pathname user plist_data =
        (.error (.fileAlreadyExists (kind ++ "/" ++ pathname ++ " already exists!")), fs))
    ∧ (∀ (S : Settings) (O : IOOracle) (fs : Fs) (kind pathname user : String),
      fs.existsPath (mkFilepath S kind pathname) = false →
      Plist.delete S O fs kind pathname user =
        (.error (.fileDoesNotExist (kind ++ "/" ++ pathname ++ " does not exist")), fs))
    ∧ (∀ (P : Parsers) (S : Settings) (O : IOOracle) (fs : Fs) (kind pathname : String),
      fs.existsPath (mkFilepath S kind pathname) = false →
      Plist.read P S O fs kind pathname =
        .error (.fileDoesNotExist (kind ++ "/" ++ pathname ++ " not found"))) := by
  refine ⟨?_, ?_, ?_⟩
  · intro E S O fs kind pathname user plist_data h
    simp [Plist.new, h]
  · intro S O fs kind pathname user h
    simp [Plist.delete, h]
  · intro P S O fs kind pathname h
    simp [Plist.read, read_plist_or_yaml, h]

/-- A one-file filesystem holding stale content at `manifests/x`. -/
def fsOne : Fs := Fs.empty.setFile "/repo/manifests/x" "stale"

theorem existence_preconditions_witness :
    (Plist.new encoders0 settings0 IOOracle.allOk fsOne "manifests" "x" "u" none) =
      (.error (.fileAlreadyExists "manifests/x already exists!"), fsOne) ∧
    (Plist.delete settings0 IOOracle.allOk Fs.empty "manifests" "x" "u") =
      (.error (.fileDoesNotExist "manifests/x does not exist"), Fs.empty) ∧
    Plist.read stubParsers settings0 IOOracle.allOk Fs.empty "manifests" "x" =
      .error (.fileDoesNotExist "manifests/x not found") := by
  refine ⟨?_, ?_, ?_⟩
  · exact existence_preconditions.1 encoders0 settings0 IOOracle.allOk fsOne
      "manifests" "x" "u" none (by decide)
  · exact existence_preconditions.2.1 settings0 IOOracle.allOk Fs.empty
      "manifests" "x" "u" (by decide)
  · exact existence_preconditions.2.2 stubParsers settings0 IOOracle.allOk Fs.empty
      "manifests" "x" (by decide)

theorem noOsError_write_plist_or_yaml (E : Encoders) (avail : Bool) (d : Doc) (p : Bool) :
    noOsError (write_plist_or_yaml E avail d p) = true := by
  unfold write_plist_or_yaml
  repeat' split
  all_goals rfl

theorem noOsError_decode (P : Parsers) (avail : Bool) (content : String) (p : Bool) :
    noOsError (decode_plist_or_yaml P avail content p) = true := by
  unfold decode_plist_or_yaml
  repeat' split
  all_goals rfl

theorem noOsError_read_plist_or_yaml (P : Parsers) (avail : Bool) (O : IOOracle)
    (fs : Fs) (fp : String) : noOsError (read_plist_or_yaml P avail O fs fp) = true := by
  unfold read_plist_or_yaml
  repeat' split
  all_goals first | rfl | apply noOsError_decode

theorem ensureParentDir_error (O : IOOracle) (fs : Fs) (parent : String) (e : PyExc)
    (h : ensureParentDir O fs parent = .error e) : ∃ m, e = .fileWriteError m := by
  unfold ensureParentDir at h
  split at h
  · cases hm : O.makedirsResult with
    | ok u => rw [hm] at h; simp at h
    | error err =>
      rw [hm] at h
      simp only [Except.error.injEq] at h
      exact ⟨err, h.symm⟩
  · simp at h

theorem write_plist_or_yaml_error (E : Encoders) (avail : Bool) (d : Doc) (p : Bool)
    (e : PyExc) (h : write_plist_or_yaml E avail d p = .error e) :
    ∃ m, e = .fileWriteError m := by
  unfold write_plist_or_yaml at h
  split at h <;> split at h <;> simp_all <;> exact ⟨_, h.symm⟩

theorem noOsError_plist_read (P : Parsers) (S : Settings) (O : IOOracle) (fs : Fs)
    (kind pathname : String) : noOsError (Plist.read P S O fs kind pathname) = true := by
  have hb := noOsError_read_plist_or_yaml P S.yamlAvailable O fs (mkFilepath S kind pathname)
  rcases h : read_plist_or_yaml P S.yamlAvailable O fs (mkFilepath S kind pathname) with e | d
  · rw [h] at hb
    cases e <;> simp_all [Plist.read, noOsError]
  · simp [Plist.read, h, noOsError]

theorem noOsError_plist_new (E : Encoders) (S : Settings) (O : IOOracle) (fs : Fs)
    (kind pathname user : String) (plist_data : Option Doc) :
    noOsError (Plist.new E S O fs kind pathname user plist_data).1 = true := by
  unfold Plist.new
  dsimp only
  repeat' split
  all_goals try rfl
  all_goals rename_i heq
  all_goals
    first
      | (rcases ensureParentDir_error _ _ _ _ heq with ⟨m, rfl⟩; rfl)
      | (rcases write_plist_or_yaml_error _ _ _ _ _ heq with ⟨m, rfl⟩; rfl)

theorem noOsError_plist_write (S : Settings) (O : IOOracle) (fs : Fs)
    (data kind pathname user : String) :
    noOsError (Plist.write S O fs data kind pathname user).1 = true := by
  unfold Plist.write
  dsimp only
  repeat' split
  all_goals try rfl
  all_goals rename_i heq
  all_goals rcases ensureParentDir_error _ _ _ _ heq with ⟨m, rfl⟩; rfl

theorem noOsError_plist_write_object (E : Encoders) (S : Settings) (O : IOOracle)
    (fs : Fs) (d : Doc) (kind pathname user : String) (pf : Option Bool) :
    noOsError (Plist.write_object E S O fs d kind pathname user pf).1 = true := by
  unfold Plist.write_object
  dsimp only
  repeat' split
  all_goals try rfl
  all_goals rename_i heq
  all_goals
    first
      | (rcases ensureParentDir_error _ _ _ _ heq with ⟨m, rfl⟩; rfl)
      | (rcases write_plist_or_yaml_error _ _ _ _ _ heq with ⟨m, rfl⟩; rfl)

theorem noOsError_plist_delete (S : Settings) (O : IOOracle) (fs : Fs)
    (kind pathname user : String) :
    noOsError (Plist.delete S O fs kind pathname user).1 = true := by
  unfold Plist.delete
  dsimp only
  repeat' split
  all_goals rfl

/-- C9: for every store operation (`read`, `write`, `write_object`,
`new`/create, `delete`) and every filesystem-failure outcome of the
underlying syscalls, no raw platform `OSError`/`IOError` ever escapes
(`noOsError` of every result, for all oracles), and the failing syscall is
re-raised as the operation-specific typed error carrying the underlying
cause: a failing read is re-raised as `FileReadError` naming the path and
cause; a failing write or `makedirs` is re-raised as `FileWriteError`
carrying the cause by `write`, by `write_object` and by `new`; and a
failing unlink is re-raised as `FileDeleteError` carrying the cause. -/
theorem fs_failures_wrapped :
    (∀ (P : Parsers) (S : Settings) (O : IOOracle) (fs : Fs) (kind pathname : String),
       noOsError (Plist.read P S O fs kind pathname) = true)
    ∧ (∀ (E : Encoders) (S : Settings) (O : IOOracle) (fs : Fs)
          (kind pathname user : String) (plist_data : Option Doc),
       noOsError (Plist.new E S O fs kind pathname user plist_data).1 = true)
    ∧ (∀ (S : Settings) (O : IOOracle) (fs : Fs) (data kind pathname user : String),
       noOsError (Plist.write S O fs data kind pathname user).1 = true)
    ∧ (∀ (E : Encoders) (S : Settings) (O : IOOracle) (fs : Fs) (d : Doc)
          (kind pathname user : String) (pf : Option Bool),
       noOsError (Plist.write_object E S O fs d kind pathname user pf).1 = true)
    ∧ (∀ (S : Settings) (O : IOOracle) (fs : Fs) (kind pathname user : String),
       noOsError (Plist.delete S O fs kind pathname user).1 = true)
    ∧ (∀ (P : Parsers) (S : Settings) (O : IOOracle) (fs : Fs) (kind pathname err : String),
       O.readResult = .error err →
       fs.existsPath (mkFilepath S kind pathname) = true →
       Plist.read P S O fs kind pathname =
         .error (.fileReadError ("Could not read " ++ mkFilepath S kind pathname ++ ": " ++ err)))
    ∧ (∀ (S : Settings) (O : IOOracle) (fs : Fs) (data kind pathname user err : String),
       O.writeResult = .error err →
       fs.existsPath (dirnameS (mkFilepath S kind pathname)) = true →
       (Plist.write S O fs data kind pathname user).1 = .error (.fileWriteError err))
    ∧ (∀ (S : Settings) (O : IOOracle) (fs : Fs) (data kind pathname user err : String),
       O.makedirsResult = .error err →
       fs.existsPath (dirnameS (mkFilepath S kind pathname)) = false →
       (Plist.write S O fs data kind pathname user).1 = .error (.fileWriteError err))
    ∧ (∀ (S : Settings) (O : IOOracle) (fs : Fs) (kind pathname user err : String),
       O.unlinkResult = .error err →
       fs.existsPath (mkFilepath S kind pathname) = true →
       (Plist.delete S O fs kind pathname user).1 = .error (.fileDeleteError err))
    ∧ (∀ (E : Encoders) (S : Settings) (O : IOOracle) (fs : Fs)
          (kind pathname user err : String) (plist_data : Option Doc),
       O.makedirsResult = .error err →
       fs.existsPath (mkFilepath S kind pathname) = false →
       fs.existsPath (dirnameS (mkFilepath S kind pathname)) = false →
       (Plist.new E S O fs kind pathname user plist_data).1 = .error (.fileWriteError err))
    ∧ (∀ (E : Encoders) (S : Settings) (O : IOOracle) (fs : Fs)
          (kind pathname user err : String) (d : Doc) (data : String),
       O.makedirsResult = .ok () →
       O.writeResult = .error err →
       fs.existsPath (mkFilepath S kind pathname) = false →
       docTruthy (some d) = true →
       write_plist_or_yaml E S.yamlAvailable d (newPreferYaml pathname S) = .ok data →
       (Plist.new E S O fs kind pathname user (some d)).1 = .error (.fileWriteError err))
    ∧ (∀ (E : Encoders) (S : Settings) (O : IOOracle) (fs : Fs) (d : Doc)
          (kind pathname user err : String) (pf : Option Bool),
       O.makedirsResult = .error err →
       fs.existsPath (dirnameS (mkFilepath S kind pathname)) = false →
       (Plist.write_object E S O fs d kind pathname user pf).1 =
         .error (.fileWriteError err))
    ∧ (∀ (E : Encoders) (S : Settings) (O : IOOracle) (fs : Fs) (d : Doc)
          (kind pathname user err : String) (pf : Option Bool) (content : String),
       O.makedirsResult = .ok () →
       O.writeResult = .error err →
       write_plist_or_yaml E S.yamlAvailable d (writeObjectPreferYaml pf pathname S) =
         .ok content →
       (Plist.write_object E S O fs d kind pathname user pf).1 =
         .error (.fileWriteError err)) := by
  refine ⟨noOsError_plist_read, noOsError_plist_new, noOsError_plist_write,
    noOsError_plist_write_object, noOsError_plist_delete, ?_, ?_, ?_, ?_, ?_, ?_, ?_, ?_⟩
  · intro P S O fs kind pathname err hread hex
    simp [Plist.read, read_plist_or_yaml, hread, hex]
  · intro S O fs data kind pathname user err hwrite hparent
    simp [Plist.write, ensureParentDir, hwrite, hparent]
  · intro S O fs data kind pathname user err hmk hparent
    simp [Plist.write, ensureParentDir, hmk, hparent]
  · intro S O fs kind pathname user err hunlink hex
    simp [Plist.delete, hunlink, hex]
  · intro E S O fs kind pathname user err plist_data hmk hex hparent
    simp [Plist.new, ensureParentDir, hmk, hex, hparent]
  · intro E S O fs kind pathname user err d data hmk hw hex htr henc
    by_cases hp : fs.existsPath (dirnameS (mkFilepath S kind pathname)) = true <;>
      simp [Plist.new, ensureParentDir, hmk, hw, hex, htr, henc, hp]
  · intro E S O fs d kind pathname user err pf hmk hparent
    simp [Plist.write_object, ensureParentDir, hmk, hparent]
  · intro E S O fs d kind pathname user err pf content hmk hw henc
    by_cases hp : fs.existsPath (dirnameS (mkFilepath S kind pathname)) = true <;>
      simp [Plist.write_object, ensureParentDir, hmk, hw, henc, hp]

/-- A failing-writes oracle carrying distinguishable causes. -/
def oracleFailing : IOOracle :=
  ⟨.error "mkdir denied", .error "read denied", .error "write denied", .error "unlink denied"⟩

/-- An oracle whose directory creation succeeds but whose file write
fails. -/
def oracleWriteFail : IOOracle :=
  ⟨.ok (), .ok (), .error "write denied", .ok ()⟩

theorem fs_failures_wrapped_witness :
    noOsError (Plist.read stubParsers settings0 oracleFailing fsOne "manifests" "x") = true ∧
    Plist.read stubParsers settings0 oracleFailing fsOne "manifests" "x" =
      .error (.fileReadError "Could not read /repo/manifests/x: read denied") ∧
    (Plist.delete settings0 oracleFailing fsOne "manifests" "x" "u").1 =
      .error (.fileDeleteError "unlink denied") ∧
    (Plist.write settings0 oracleFailing fsOne "text" "manifests" "sub/y" "u").1 =
      .error (.fileWriteError "mkdir denied") ∧
    (Plist.new encoders0 settings0 oracleFailing Fs.empty "manifests" "sub/m" "u" none).1 =
      .error (.fileWriteError "mkdir denied") ∧
    (Plist.new encoders0 settings0 oracleWriteFail Fs.empty "manifests" "y" "u"
        (some (.s "x"))).1 = .error (.fileWriteError "write denied") ∧
    (Plist.write_object encoders0 settings0 oracleFailing Fs.empty (.s "x")
        "pkgsinfo" "a/b" "u" none).1 = .error (.fileWriteError "mkdir denied") ∧
    (Plist.write_object encoders0 settings0 oracleWriteFail Fs.empty (.s "x")
        "pkgsinfo" "w.plist" "u" none).1 = .error (.fileWriteError "write denied") := by
  refine ⟨fs_failures_wrapped.1 stubParsers settings0 oracleFailing fsOne "manifests" "x",
    ?_, ?_, ?_, ?_, ?_, ?_, ?_⟩
  · exact fs_failures_wrapped.2.2.2.2.2.1 stubParsers settings0 oracleFailing fsOne
      "manifests" "x" "read denied" rfl (by decide)
  · exact fs_failures_wrapped.2.2.2.2.2.2.2.2.1 settings0 oracleFailing fsOne
      "manifests" "x" "u" "unlink denied" rfl (by decide)
  · exact fs_failures_wrapped.2.2.2.2.2.2.2.1 settings0 oracleFailing fsOne
      "text" "manifests" "sub/y" "u" "mkdir denied" rfl (by decide)
  · exact fs_failures_wrapped.2.2.2.2.2.2.2.2.2.1 encoders0 settings0 oracleFailing
      Fs.empty "manifests" "sub/m" "u" "mkdir denied" none rfl (by decide) (by decide)
  · exact fs_failures_wrapped.2.2.2.2.2.2.2.2.2.2.1 encoders0 settings0 oracleWriteFail
      Fs.empty "manifests" "y" "u" "write denied" (.s "x") "Pl" rfl rfl (by decide)
      (by decide) rfl
  · exact fs_failures_wrapped.2.2.2.2.2.2.2.2.2.2.2.1 encoders0 settings0 oracleFailing
      Fs.empty (.s "x") "pkgsinfo" "a/b" "u" "mkdir denied" none rfl (by decide)
  · exact fs_failures_wrapped.2.2.2.2.2.2.2.2.2.2.2.2 encoders0 settings0 oracleWriteFail
      Fs.empty (.s "x") "pkgsinfo" "w.plist" "u" "write denied" none "Pl" rfl rfl rfl

theorem walkForest_no_dots :
    ∀ (n : Nat) (l : List DirTree) (subdir : List String), sizeOf l ≤ n →
      (∀ c ∈ subdir, py_startswith c "." = false) →
      ∀ p ∈ walkForest subdir l, ∀ c ∈ p, py_startswith c "." = false := by
  intro n
  induction n with
  | zero =>
    intro l subdir hle
    exfalso
    cases l <;> simp at hle
  | succ n ih =>
    intro l subdir hle hsub p hp c hc
    cases l with
    | nil => simp [walkForest] at hp
    | cons t ts =>
      obtain ⟨name, files, subs⟩ := t
      have hsizes : sizeOf subs ≤ n ∧ sizeOf ts ≤ n := by
        simp [List.cons.sizeOf_spec, DirTree.node.sizeOf_spec] at hle
        omega
      rw [walkForest] at hp
      rcases List.mem_append.mp hp with hp1 | hp2
      · by_cases hname : py_startswith name "." = true
        · simp [hname] at hp1
        · rw [if_neg hname] at hp1
          have hnameF : py_startswith name "." = false := by
            simpa using hname
          rcases List.mem_append.mp hp1 with hfile | hrec
          · obtain ⟨f, hf, rfl⟩ := List.mem_map.mp hfile
            have hfF : py_startswith f "." = false := by
              have := (List.mem_filter.mp hf).2
              simpa using this
            rcases List.mem_append.mp hc with hcs | hcnf
            · exact hsub c hcs
            · simp only [List.mem_cons, List.not_mem_nil, or_false] at hcnf
              rcases hcnf with rfl | rfl
              · exact hnameF
              · exact hfF
          · refine ih subs (subdir ++ [name]) hsizes.1 ?_ p hrec c hc
            intro c' hc'
            rcases List.mem_append.mp hc' with hcs | hcn
            · exact hsub c' hcs
            · rcases List.mem_singleton.mp hcn with rfl
              exact hnameF
      · exact ih ts subdir hsizes.2 hsub p hp2 c hc

/-- C8: neither `Plist.list` nor `MunkiFile.list` ever returns an entry one
of whose path components (its own name or any ancestor directory name below
the kind root) starts with `.`: the walk prunes dot-prefixed directories
before descending and filters dot-prefixed file names. -/
theorem list_never_reports_dot_entries :
    (∀ (t : DirTree) (p : List String), p ∈ Plist.list t →
       ∀ c ∈ p, py_startswith c "." = false)
    ∧ (∀ (t : DirTree) (p : List String), p ∈ MunkiFile.list t →
       ∀ c ∈ p, py_startswith c "." = false) := by
  have key : ∀ (t : DirTree) (p : List String), p ∈ listWalk t →
      ∀ c ∈ p, py_startswith c "." = false := by
    intro t p hp c hc
    obtain ⟨name, files, subs⟩ := t
    simp only [listWalk] at hp
    rcases List.mem_append.mp hp with hfile | hrec
    · obtain ⟨f, hf, rfl⟩ := List.mem_map.mp hfile
      rcases List.mem_singleton.mp hc with rfl
      have := (List.mem_filter.mp hf).2
      simpa using this
    · exact walkForest_no_dots (sizeOf subs) subs [] le_rfl (by simp) p hrec c hc
  exact ⟨fun t p hp => key t p hp, fun t p hp => key t p hp⟩

/-- A sample tree with a dot-file at the root, a dot-directory (with a
normal file inside), and a normal subdirectory. -/
def tree0 : DirTree :=
  .node "manifests" ["included", ".hidden"]
    [.node ".git" ["config"] [], .node "site" ["default.yaml"] []]

theorem list_never_reports_dot_entries_witness :
    Plist.list tree0 = [["included"], ["site", "default.yaml"]] ∧
    py_startswith "site" "." = false ∧ py_startswith "default.yaml" "." = false := by
  have hmem : ["site", "default.yaml"] ∈ Plist.list tree0 := by
    simp [Plist.list, tree0, listWalk, walkForest, py_startswith]
    decide
  refine ⟨?_, ?_, ?_⟩
  · simp [Plist.list, tree0, listWalk, walkForest, py_startswith]
    decide
  · exact list_never_reports_dot_entries.1 tree0 ["site", "default.yaml"] hmem "site"
      (by decide)
  · exact list_never_reports_dot_entries.1 tree0 ["site", "default.yaml"] hmem
      "default.yaml" (by decide)

theorem splitext_of_endswith_plist (fp : String) (h : py_endswith fp ".plist" = true) :
    splitextExtData fp = ".plist".data ∨ splitextExtData fp = [] := by
  unfold py_endswith at h
  rw [List.isSuffixOf_iff_suffix] at h
  obtain ⟨pre, hpre⟩ := h
  unfold splitextExtData
  rw [← hpre, show (".plist".data : List Char) = ['.', 'p', 'l', 'i', 's', 't'] from rfl]
  rw [List.reverse_append, show (['.', 'p', 'l', 'i', 's', 't'] : List Char).reverse
    = ['t', 's', 'i', 'l', 'p', '.'] from rfl]
  have h1 : List.takeWhile (fun c => c != '/')
        ('t' :: 's' :: 'i' :: 'l' :: 'p' :: '.' :: pre.reverse)
      = 't' :: 's' :: 'i' :: 'l' :: 'p' :: '.' ::
        List.takeWhile (fun c => c != '/') pre.reverse := by
    simp [List.takeWhile_cons]
  simp only [List.cons_append, List.nil_append] at h1 ⊢
  rw [h1]
  simp only [extAfterDot]
  by_cases h2 : (List.takeWhile (fun c => c != '/') pre.reverse).any (fun x => x != '.') = true
  · simp [h2]
  · simp [h2]

theorem is_yaml_file_of_endswith_plist (fp : String) (h : py_endswith fp ".plist" = true) :
    is_yaml_file fp = false := by
  unfold is_yaml_file
  rcases splitext_of_endswith_plist fp h with h1 | h1 <;>
    by_cases h0 : py_empty fp = true <;> simp [h0, h1]

theorem is_yaml_file_of_ext (fp : String)
    (h : (splitextExtData fp).map Char.toLower = ".yaml".data ∨
         (splitextExtData fp).map Char.toLower = ".yml".data) :
    is_yaml_file fp = true := by
  have hne : py_empty fp = false := by
    by_contra hc
    simp only [Bool.not_eq_false] at hc
    have hdata : fp.data = [] := by
      unfold py_empty at hc
      exact List.isEmpty_iff.mp hc
    have hsp : splitextExtData fp = [] := by
      unfold splitextExtData
      rw [hdata]
      rfl
    rw [hsp] at h
    simp only [List.map_nil] at h
    rcases h with h | h <;> exact absurd h (by decide)
  unfold is_yaml_file
  rcases h with h | h <;> simp [hne, h]

/-- C2: for an existing, readable file, a path whose `os.path.splitext`
suffix lowercases to `.yaml` or `.yml` is always classified `yaml`, and a
path ending in `.plist` is always classified `plist` — in both cases
regardless of the file's content: the suffix checks precede all content
sniffing in `get_file_format_info`. -/
theorem classify_suffix_over_content :
    (∀ (avail : Bool) (fp content : String),
       ((splitextExtData fp).map Char.toLower = ".yaml".data ∨
        (splitextExtData fp).map Char.toLower = ".yml".data) →
       (get_file_format_info avail fp true (.ok content)).format = "yaml")
    ∧ (∀ (avail : Bool) (fp content : String),
       py_endswith fp ".plist" = true →
       (get_file_format_info avail fp true (.ok content)).format = "plist") := by
  constructor
  · intro avail fp content h
    have hy := is_yaml_file_of_ext fp h
    simp [get_file_format_info, hy]
  · intro avail fp content h
    have hn := is_yaml_file_of_endswith_plist fp h
    simp [get_file_format_info, hn, h]

theorem classify_suffix_over_content_witness :
    (get_file_format_info true "a.YAML" true (.ok "<?xml version")).format = "yaml" ∧
    (get_file_format_info true "b.plist" true (.ok "---\nfoo: bar")).format = "plist" :=
  ⟨classify_suffix_over_content.1 true "a.YAML" "<?xml version" (Or.inl (by decide)),
   classify_suffix_over_content.2 true "b.plist" "---\nfoo: bar" (by decide)⟩

theorem rev_head_of_suffix (fp : String) (suf : List Char) (hne : suf ≠ [])
    (h : suf.isSuffixOf fp.data = true) :
    fp.data.reverse.head? = suf.reverse.head? := by
  rw [List.isSuffixOf_iff_suffix] at h
  obtain ⟨pre, hpre⟩ := h
  rw [← hpre, List.reverse_append]
  cases hs : suf.reverse with
  | nil => exact absurd (by simpa using hs) hne
  | cons a l => simp [hs]

theorem not_yaml_suffix_of_plist_suffix (fp : String)
    (h : py_endswith fp ".plist" = true) :
    (py_endswith fp ".yaml" || py_endswith fp ".yml") = false := by
  unfold py_endswith at h
  have h1 := rev_head_of_suffix fp ".plist".data (by decide) h
  rw [Bool.or_eq_false_iff]
  constructor
  · by_contra hc
    simp only [Bool.not_eq_false] at hc
    unfold py_endswith at hc
    have h2 := rev_head_of_suffix fp ".yaml".data (by decide) hc
    rw [h1] at h2
    exact absurd h2 (by decide)
  · by_contra hc
    simp only [Bool.not_eq_false] at hc
    unfold py_endswith at hc
    have h2 := rev_head_of_suffix fp ".yml".data (by decide) hc
    rw [h1] at h2
    exact absurd h2 (by decide)

/-- C3: `create`'s format resolution (`newPreferYaml`) and `write`'s
structured-document resolution (`writeObjectPreferYaml`) agree — `create`
has no explicit-preference parameter, so it coincides with `write` called
with no explicit preference — and both implement the precedence: explicit
path suffix (`.yaml`/`.yml` forces YAML, `.plist` forces plist) over the
caller's explicit preference, over the configured `PREFER_YAML_FORMAT`
default, over a hard default of plist; in particular, with the global
preference set to plist, creating suffix-less `foo` serializes with the
plist encoder while creating `foo.yaml` serializes with the YAML encoder. -/
theorem preference_resolution :
    (∀ (pathname : String) (S : Settings),
       newPreferYaml pathname S = writeObjectPreferYaml none pathname S)
    ∧ (∀ (pathname : String) (S : Settings) (p : Option Bool),
       (py_endswith pathname ".yaml" || py_endswith pathname ".yml") = true →
       writeObjectPreferYaml p pathname S = true ∧ newPreferYaml pathname S = true)
    ∧ (∀ (pathname : String) (S : Settings) (p : Option Bool),
       py_endswith pathname ".plist" = true →
       writeObjectPreferYaml p pathname S = false ∧ newPreferYaml pathname S = false)
    ∧ (∀ (pathname : String) (S : Settings) (b : Bool),
       (py_endswith pathname ".yaml" || py_endswith pathname ".yml") = false →
       py_endswith pathname ".plist" = false →
       writeObjectPreferYaml (some b) pathname S = b)
    ∧ (∀ (pathname : String) (S : Settings),
       (py_endswith pathname ".yaml" || py_endswith pathname ".yml") = false →
       py_endswith pathname ".plist" = false →
       writeObjectPreferYaml none pathname S = S.preferYamlFormat.getD false)
    ∧ (∀ (pathname : String) (S : Settings),
       S.preferYamlFormat = none →
       (py_endswith pathname ".yaml" || py_endswith pathname ".yml") = false →
       py_endswith pathname ".plist" = false →
       writeObjectPreferYaml none pathname S = false)
    ∧ (∀ (E : Encoders) (S : Settings) (s : String),
       S.preferYamlFormat = some false →
       E.plistDumps manifestSkeleton = .ok s →
       (Plist.new E S IOOracle.allOk Fs.empty "manifests" "foo" "u" none).1 = .ok s)
    ∧ (∀ (E : Encoders) (S : Settings) (s : String),
       S.preferYamlFormat = some false →
       S.yamlAvailable = true →
       E.yamlDump manifestSkeleton = .ok s →
       (Plist.new E S IOOracle.allOk Fs.empty "manifests" "foo.yaml" "u" none).1 = .ok s) := by
  refine ⟨?_, ?_, ?_, ?_, ?_, ?_, ?_, ?_⟩
  · intro pathname S
    unfold newPreferYaml writeObjectPreferYaml
    by_cases e1 : (py_endswith pathname ".yaml" || py_endswith pathname ".yml") = true
    · simp [e1]
    · by_cases e2 : py_endswith pathname ".plist" = true <;> simp [e1, e2]
  · intro pathname S p h
    unfold newPreferYaml writeObjectPreferYaml
    simp [h]
  · intro pathname S p h
    have e1 := not_yaml_suffix_of_plist_suffix pathname h
    unfold newPreferYaml writeObjectPreferYaml
    simp [e1, h]
  · intro pathname S b h1 h2
    unfold writeObjectPreferYaml
    simp [h1, h2]
  · intro pathname S h1 h2
    unfold writeObjectPreferYaml
    simp [h1, h2]
  · intro pathname S hpref h1 h2
    unfold writeObjectPreferYaml
    simp [h1, h2, hpref]
  · intro E S s hpref hok
    simp [Plist.new, ensureParentDir, IOOracle.allOk, docTruthy, newDefaultDoc,
      newPreferYaml, write_plist_or_yaml, hpref, hok,
      Fs.existsPath, Fs.lookupFile, Fs.empty, Fs.mkdirs,
      show py_endswith "foo" ".yaml" = false from by decide,
      show py_endswith "foo" ".yml" = false from by decide,
      show py_endswith "foo" ".plist" = false from by decide]
  · intro E S s hpref havail hok
    simp [Plist.new, ensureParentDir, IOOracle.allOk, docTruthy, newDefaultDoc,
      newPreferYaml, write_plist_or_yaml, hpref, havail, hok,
      Fs.existsPath, Fs.lookupFile, Fs.empty, Fs.mkdirs,
      show py_endswith "foo.yaml" ".yaml" = true from by decide]

theorem preference_resolution_witness :
    writeObjectPreferYaml (some false) "x.yaml" settings0 = true ∧
    newPreferYaml "foo" settings0 = false ∧
    newPreferYaml "foo.yaml" settings0 = true ∧
    (Plist.new encoders0 settings0 IOOracle.allOk Fs.empty "manifests" "foo" "u" none).1
      = .ok "Pl" ∧
    (Plist.new encoders0 settings0 IOOracle.allOk Fs.empty "manifests" "foo.yaml" "u" none).1
      = .ok "Y" := by
  refine ⟨?_, ?_, ?_, ?_, ?_⟩
  · exact (preference_resolution.2.1 "x.yaml" settings0 (some false) (by decide)).1
  · exact (preference_resolution.1 "foo" settings0).trans
      ((preference_resolution.2.2.2.2.1 "foo" settings0 (by decide) (by decide)).trans rfl)
  · exact (preference_resolution.2.1 "foo.yaml" settings0 none (by decide)).2
  · exact preference_resolution.2.2.2.2.2.2.1 encoders0 settings0 "Pl" rfl rfl
  · exact preference_resolution.2.2.2.2.2.2.2 encoders0 settings0 "Y" rfl rfl rfl

/-- C6: with no caller-supplied document, `create` materializes exactly the
documented kind-specific skeletons.  For `manifests`, the written file
decodes (through the matching parser, assumed inverse to the serializer on
the skeleton) back to a mapping with exactly the six section keys, each
mapped to an empty list; for `pkgsinfo`, back to a mapping carrying
`name`, `display_name`, `version` and `catalogs` with the documented
placeholder values. -/
theorem create_default_skeleton_contents (P : Parsers) (E : Encoders) (S : Settings)
    (sM sP : String)
    (hRepo : S.repoDir = "/repo") (havail : S.yamlAvailable = true)
    (hEy : E.yamlDump manifestSkeleton = .ok sM)
    (hPy : P.yamlLoad sM = .ok manifestSkeleton)
    (hEp : E.plistDumps pkgsinfoSkeleton = .ok sP)
    (hPp : P.plistLoads sP = .ok pkgsinfoSkeleton) :
    ((Plist.new E S IOOracle.allOk Fs.empty "manifests" "site/default.yaml" "u" none).1
        = .ok sM
      ∧ Plist.read P S IOOracle.allOk
          (Plist.new E S IOOracle.allOk Fs.empty "manifests" "site/default.yaml" "u" none).2
          "manifests" "site/default.yaml" = .ok manifestSkeleton)
    ∧ Doc.keys manifestSkeleton = manifestSections
    ∧ (∀ k, Doc.lookup manifestSkeleton k = none ∨
            Doc.lookup manifestSkeleton k = some (.list []))
    ∧ ((Plist.new E S IOOracle.allOk Fs.empty "pkgsinfo" "Firefox-100.plist" "u" none).1
        = .ok sP
      ∧ Plist.read P S IOOracle.allOk
          (Plist.new E S IOOracle.allOk Fs.empty "pkgsinfo" "Firefox-100.plist" "u" none).2
          "pkgsinfo" "Firefox-100.plist" = .ok pkgsinfoSkeleton)
    ∧ Doc.lookup pkgsinfoSkeleton "name" = some (.s "ProductName")
    ∧ Doc.lookup pkgsinfoSkeleton "display_name" = some (.s "Display Name")
    ∧ Doc.lookup pkgsinfoSkeleton "version" = some (.s "1.0")
    ∧ Doc.lookup pkgsinfoSkeleton "catalogs" = some (.list [.s "development"]) := by
  have hfpM : mkFilepath S "manifests" "site/default.yaml"
      = "/repo/manifests/site/default.yaml" := by
    unfold mkFilepath
    rw [hRepo]
    decide
  have hfpP : mkFilepath S "pkgsinfo" "Firefox-100.plist"
      = "/repo/pkgsinfo/Firefox-100.plist" := by
    unfold mkFilepath
    rw [hRepo]
    decide
  have hnewM : Plist.new E S IOOracle.allOk Fs.empty "manifests" "site/default.yaml" "u" none
      = (.ok sM, (Fs.empty.mkdirs (dirnameS "/repo/manifests/site/default.yaml")).setFile
          "/repo/manifests/site/default.yaml" sM) := by
    simp [Plist.new, hfpM, ensureParentDir, IOOracle.allOk, docTruthy, newDefaultDoc,
      write_plist_or_yaml, hEy, havail,
      Fs.existsPath, Fs.lookupFile, Fs.empty,
      show newPreferYaml "site/default.yaml" S = true from by
        simp [newPreferYaml, show py_endswith "site/default.yaml" ".yaml" = true from by decide]]
  have hnewP : Plist.new E S IOOracle.allOk Fs.empty "pkgsinfo" "Firefox-100.plist" "u" none
      = (.ok sP, (Fs.empty.mkdirs (dirnameS "/repo/pkgsinfo/Firefox-100.plist")).setFile
          "/repo/pkgsinfo/Firefox-100.plist" sP) := by
    simp [Plist.new, hfpP, ensureParentDir, IOOracle.allOk, docTruthy, newDefaultDoc,
      write_plist_or_yaml, hEp,
      Fs.existsPath, Fs.lookupFile, Fs.empty,
      show newPreferYaml "Firefox-100.plist" S = false from by
        simp [newPreferYaml,
          show py_endswith "Firefox-100.plist" ".yaml" = false from by decide,
          show py_endswith "Firefox-100.plist" ".yml" = false from by decide,
          show py_endswith "Firefox-100.plist" ".plist" = true from by decide]]
  refine ⟨⟨?_, ?_⟩, rfl, ?_, ⟨?_, ?_⟩, rfl, rfl, rfl, rfl⟩
  · rw [hnewM]
  · rw [hnewM]
    simp [Plist.read, hfpM, read_plist_or_yaml, IOOracle.allOk,
      Fs.existsPath, Fs.lookupFile, Fs.setFile, Fs.mkdirs, Fs.empty,
      decode_plist_or_yaml, hPy, havail,
      show is_yaml_file "/repo/manifests/site/default.yaml" = true from by decide]
  · intro k
    simp only [Doc.lookup, manifestSkeleton, manifestSections, List.map, List.lookup]
    repeat' split
    all_goals simp
  · rw [hnewP]
  · rw [hnewP]
    simp [Plist.read, hfpP, read_plist_or_yaml, IOOracle.allOk,
      Fs.existsPath, Fs.lookupFile, Fs.setFile, Fs.mkdirs, Fs.empty,
      decode_plist_or_yaml, hPp,
      show is_yaml_file "/repo/pkgsinfo/Firefox-100.plist" = false from by decide,
      show py_endswith "/repo/pkgsinfo/Firefox-100.plist" ".plist" = true from by decide]

/-- Concrete parsers inverse to `encoders0` on the two skeletons. -/
def parsersSkeleton : Parsers :=
  ⟨fun _ => .ok manifestSkeleton, fun _ => .ok pkgsinfoSkeleton⟩

theorem create_default_skeleton_contents_witness :
    ((Plist.new encoders0 settings0 IOOracle.allOk Fs.empty
        "manifests" "site/default.yaml" "u" none).1 = .ok "Y"
      ∧ Plist.read parsersSkeleton settings0 IOOracle.allOk
          (Plist.new encoders0 settings0 IOOracle.allOk Fs.empty
            "manifests" "site/default.yaml" "u" none).2
          "manifests" "site/default.yaml" = .ok manifestSkeleton) ∧
    ((Plist.new encoders0 settings0 IOOracle.allOk Fs.empty
        "pkgsinfo" "Firefox-100.plist" "u" none).1 = .ok "Pl"
      ∧ Plist.read parsersSkeleton settings0 IOOracle.allOk
          (Plist.new encoders0 settings0 IOOracle.allOk Fs.empty
            "pkgsinfo" "Firefox-100.plist" "u" none).2
          "pkgsinfo" "Firefox-100.plist" = .ok pkgsinfoSkeleton) :=
  ⟨(create_default_skeleton_contents parsersSkeleton encoders0 settings0 "Y" "Pl"
      rfl rfl rfl rfl rfl rfl).1,
   (create_default_skeleton_contents parsersSkeleton encoders0 settings0 "Y" "Pl"
      rfl rfl rfl rfl rfl rfl).2.2.2.1⟩
